import Mathlib

/-!
Shallow embedding of the agora-engine core (app/main.py, app/models/chat.py,
app/models/thread.py, app/repositories/thread_repository.py, app/database.py):
the mention parsing, prompt composition, chat-turn orchestration, title
generation and the repository's SQL effects, together with theorems checking
the natural-language specification against them.
-/

namespace Agora

/-- The ModelType Literal of app/models/chat.py line 7: the three participant
identities anthropic, gpt, gemini. -/
inductive ModelType where
  | anthropic
  | gpt
  | gemini
deriving DecidableEq

/-- The string value carried by a ModelType literal. -/
def ModelType.modelName : ModelType → String
  | ModelType.anthropic => "anthropic"
  | ModelType.gpt => "gpt"
  | ModelType.gemini => "gemini"

/-- The RoleType Literal of app/models/chat.py line 8. -/
inductive RoleType where
  | user
  | assistant
deriving DecidableEq

/-- The DiscussionPhase enum of app/models/chat.py lines 11-14. -/
inductive DiscussionPhase where
  | opinion
  | free_talk
deriving DecidableEq

/-- The Message pydantic model of app/models/chat.py lines 17-24: model is
None for user messages and defaults to None. -/
structure Message where
  role : RoleType
  content : String
  model : Option ModelType := none
deriving DecidableEq

/-- The ChatRequest pydantic model of app/models/chat.py lines 40-44, with its
field defaults (model defaults to gemini, phase defaults to OPINION). -/
structure ChatRequest where
  messages : List Message
  model : ModelType := ModelType.gemini
  phase : DiscussionPhase := DiscussionPhase.opinion
deriving DecidableEq

/-- ChatRequestWithThread of app/main.py lines 198-200: ChatRequest plus an
optional thread id. -/
structure ChatRequestWithThread extends ChatRequest where
  thread_id : Option String := none
deriving DecidableEq

/-- The ChatResponse pydantic model of app/models/chat.py lines 46-52 (the
usage field, never set by the handler, is omitted). -/
structure ChatResponse where
  message : Message
  model : Option String := none
  next_model : Option String := none
deriving DecidableEq

/-! ### Mention parser (app/main.py lines 63-73) -/

/-- Case-insensitive match of the alternation anthropic|gpt|gemini of
MENTION_PATTERN (app/main.py line 63) against the characters right after an
at-sign, tried in the alternation's left-to-right order; returns the canonical
name of the matched alternative. -/
def matchAt (rest : List Char) : Option String :=
  if (rest.take 9).map Char.toLower = "anthropic".toList then some "anthropic"
  else if (rest.take 3).map Char.toLower = "gpt".toList then some "gpt"
  else if (rest.take 6).map Char.toLower = "gemini".toList then some "gemini"
  else none

/-- Left-to-right non-overlapping scan performed by MENTION_PATTERN.findall:
returns the raw captured group (original casing) of every match in order of
occurrence, resuming after the end of each match. The fuel argument bounds the
scan and is instantiated with the text length. -/
def scanMentions : Nat → List Char → List (List Char)
  | 0, _ => []
  | _ + 1, [] => []
  | fuel + 1, c :: rest =>
    if c = '@' then
      match matchAt rest with
      | some nm => rest.take nm.length :: scanMentions fuel (rest.drop nm.length)
      | none => scanMentions fuel rest
    else scanMentions fuel rest

/-- MENTION_PATTERN.findall (app/main.py line 68). -/
def findallMentions (text : List Char) : List (List Char) :=
  scanMentions text.length text

/-- The loop of parse_mention (app/main.py lines 69-73): lowercase each raw
capture and return the first one different from the producing model. -/
def mentionLoop (current : ModelType) : List (List Char) → Option String
  | [] => none
  | m :: rest =>
    let mentioned := (m.map Char.toLower).asString
    if mentioned ≠ current.modelName then some mentioned else mentionLoop current rest

/-- parse_mention of app/main.py lines 66-73. -/
def parse_mention (text : String) (current : ModelType) : Option String :=
  mentionLoop current (findallMentions text.toList)

/-- The mention tokens of a text normalized to canonical lowercase, in their
order of occurrence (the lowercased findall captures). -/
def canonicalMentions (text : String) : List String :=
  (findallMentions text.toList).map (fun m => (m.map Char.toLower).asString)

/-- The all_models list of app/main.py line 79 (also the canonical mention
token set). -/
def allModels : List String := ["anthropic", "gpt", "gemini"]

/-! ### Prompt composer (app/main.py lines 76-114) -/

/-- The other_models string of app/main.py line 80: the comma-joined names of
the participants other than the acting one. -/
def otherModels (m : ModelType) : String :=
  String.intercalate ", " (allModels.filter (fun x => x ≠ m.modelName))

/-- Python str() applied to the optional model field of a message: None prints
as the four characters None. -/
def pyStrOfOptModel : Option ModelType → String
  | none => "None"
  | some m => m.modelName

/-- One iteration of the transcript loop of app/main.py lines 83-87. -/
def renderMessage (msg : Message) : String :=
  match msg.role with
  | RoleType.user => "User: " ++ msg.content ++ "\n"
  | RoleType.assistant => pyStrOfOptModel msg.model ++ ": " ++ msg.content ++ "\n"

/-- The messages accumulator of app/main.py lines 82-87. -/
def renderedTranscript (msgs : List Message) : String :=
  msgs.foldl (fun acc m => acc ++ renderMessage m) ""

/-- The OPINION-phase instructions f-string of app/main.py lines 91-97. -/
def opinionInstructions (m : ModelType) : String :=
  "당신은 " ++ m.modelName ++ "입니다.\n지금 " ++ otherModels m
    ++ "와 함께 토론에 참여하고 있습니다.\n\n다음을 기억하세요:\n- 솔직하게 자신의 의견만 제시하세요\n- 다른 AI를 언급하거나 질문하지 마세요\n- 3-4문단 이내로 작성하세요"

/-- The FREE_TALK-phase instructions f-string of app/main.py lines 100-108. -/
def freeTalkInstructions (m : ModelType) : String :=
  "당신은 " ++ m.modelName ++ "입니다.\n지금 " ++ otherModels m
    ++ "와 함께 토론하고 있습니다.\n\n다음을 기억하세요:\n- 이전 발언에 대해 반응하세요 (동의, 반박, 보충)\n- 다른 AI를 참조할 때는 이름만 사용하세요 (예: \"Anthropic이 말했듯이\", \"GPT의 의견처럼\")\n- 질문할 때만 응답 끝에 @를 사용하세요 (예: \"@gpt, 이에 대해 어떻게 생각하나요?\")\n- 여러 AI를 동시에 지목하지 마세요\n- 3-4문단 이내로 작성하세요"

/-- combine_messages of app/main.py lines 76-114. -/
def combine_messages (req : ChatRequest) : String :=
  let instructions :=
    match req.phase with
    | DiscussionPhase.opinion => opinionInstructions req.model
    | DiscussionPhase.free_talk => freeTalkInstructions req.model
  instructions ++ "\n\n<지금까지의 대화>\n" ++ renderedTranscript req.messages ++ "\n"

/-- The persona framing part of the instruction templates: which participant
the agent is, and the other participants, self excluded (the first two lines
of either template, as the spec describes them). -/
def personaFraming (m : ModelType) : DiscussionPhase → String
  | DiscussionPhase.opinion =>
      "당신은 " ++ m.modelName ++ "입니다.\n지금 " ++ otherModels m
        ++ "와 함께 토론에 참여하고 있습니다.\n\n"
  | DiscussionPhase.free_talk =>
      "당신은 " ++ m.modelName ++ "입니다.\n지금 " ++ otherModels m
        ++ "와 함께 토론하고 있습니다.\n\n"

/-- The phase-specific template body following the persona framing. -/
def templateBody : DiscussionPhase → String
  | DiscussionPhase.opinion =>
      "다음을 기억하세요:\n- 솔직하게 자신의 의견만 제시하세요\n- 다른 AI를 언급하거나 질문하지 마세요\n- 3-4문단 이내로 작성하세요"
  | DiscussionPhase.free_talk =>
      "다음을 기억하세요:\n- 이전 발언에 대해 반응하세요 (동의, 반박, 보충)\n- 다른 AI를 참조할 때는 이름만 사용하세요 (예: \"Anthropic이 말했듯이\", \"GPT의 의견처럼\")\n- 질문할 때만 응답 끝에 @를 사용하세요 (예: \"@gpt, 이에 대해 어떻게 생각하나요?\")\n- 여러 AI를 동시에 지목하지 마세요\n- 3-4문단 이내로 작성하세요"

/-- The rendering of one history line as the spec states it: user messages as
a User: line, assistant messages as a model-name: line. -/
def specRenderLine (msg : Message) : String :=
  match msg.role with
  | RoleType.user => "User: " ++ msg.content ++ "\n"
  | RoleType.assistant => (msg.model.elim "" ModelType.modelName) ++ ": " ++ msg.content ++ "\n"

/-- Concatenation of a list of strings in order. -/
def concatAll (l : List String) : String := l.foldr (fun a b => a ++ b) ""

/-! ### Thread store (app/repositories/thread_repository.py, app/database.py)

The repository issues parameterized SQL against MySQL through a pool created
with autocommit=True (app/database.py line 27), so every execute call commits
on its own. Modelled from the spec: the relational schema
threads(id, title, created_at, updated_at) and
messages(id, thread_id, role, content, model, created_at) of section 6 — the
DDL itself is not part of src, so the tables are modelled as plain row lists
and AppendMessage has no not-found outcome, exactly as section 4.1 specifies. -/

/-- A row of the threads table. -/
structure ThreadRow where
  id : String
  title : String
  created_at : Nat
  updated_at : Nat
deriving DecidableEq

/-- A row of the messages table (created_at is identified with the insertion
index carried in id, which the claims here never inspect). -/
structure MessageRow where
  id : Nat
  thread_id : String
  role : String
  content : String
  model : Option String
deriving DecidableEq

/-- The visible state of the database. -/
structure DBState where
  threads : List ThreadRow
  messages : List MessageRow
deriving DecidableEq

/-- The first statement of add_message (thread_repository.py lines 78-81):
INSERT INTO messages (id, thread_id, role, content, model) VALUES (...). -/
def stmtInsertMessage (db : DBState) (mid : Nat) (tid role content : String)
    (model : Option String) : DBState :=
  { db with
    messages := db.messages
      ++ [{ id := mid, thread_id := tid, role := role, content := content, model := model }] }

/-- The second statement of add_message (thread_repository.py lines 83-86):
UPDATE threads SET updated_at = NOW() WHERE id = tid. -/
def stmtBumpUpdatedAt (db : DBState) (tid : String) (now : Nat) : DBState :=
  { db with
    threads := db.threads.map
      (fun t => if t.id = tid then { t with updated_at := now } else t) }

/-- add_message of thread_repository.py lines 68-88: both statements applied
in order. With autocommit each statement is also individually committed, so
the state after stmtInsertMessage alone is observable. -/
def add_message (db : DBState) (mid now : Nat) (tid role content : String)
    (model : Option String) : DBState :=
  stmtBumpUpdatedAt (stmtInsertMessage db mid tid role content model) tid now

/-- update_thread_title of thread_repository.py lines 91-98: UPDATE threads
SET title = %s, updated_at = NOW() WHERE id = %s, returning rowcount > 0. -/
def update_thread_title (db : DBState) (tid title : String) (now : Nat) :
    DBState × Bool :=
  ({ db with
     threads := db.threads.map
       (fun t => if t.id = tid then { t with title := title, updated_at := now } else t) },
   db.threads.any (fun t => t.id == tid))

/-! ### Title generation (app/main.py lines 159-193) -/

/-- Membership of a character in the strip set of str.strip with no argument
(whitespace). -/
def isPyWhitespace (c : Char) : Bool := c.isWhitespace

/-- Membership in the strip set of the second strip call (the two quote
characters, app/main.py line 178). -/
def isQuoteChar (c : Char) : Bool := c = '"' || c = '\''

/-- Removal of leading characters satisfying p (one side of Python strip). -/
def stripLeadingBy (p : Char → Bool) (l : List Char) : List Char := l.dropWhile p

/-- Removal of trailing characters satisfying p (the other side). -/
def stripTrailingBy (p : Char → Bool) (l : List Char) : List Char :=
  (l.reverse.dropWhile p).reverse

/-- Python str.strip with character set p: both ends stripped. -/
def pyStrip (p : Char → Bool) (l : List Char) : List Char :=
  stripTrailingBy p (stripLeadingBy p l)

/-- The title computed by generate_title (app/main.py line 178) from the raw
responder output: output.strip().strip with the quote set, then slice [:50]. -/
def generate_title_output (raw : String) : String :=
  ((pyStrip isQuoteChar (pyStrip isPyWhitespace raw.toList)).take 50).asString

/-! ### Turn orchestrator (app/main.py lines 203-250) -/

/-- Python truthiness of the optional thread_id string: None and the empty
string are falsy. -/
def pyTruthyStr : Option String → Bool
  | none => false
  | some s => !s.isEmpty

/-- One add_message call issued by the chat handler: its arguments. -/
structure WriteEvent where
  thread_id : String
  role : String
  content : String
  model : Option String
deriving DecidableEq

/-- A responder capability: one of the three agents, given the instruction
string, yields the response output text. -/
def Responder := ModelType → String → String

/-- The chat handler of app/main.py lines 203-250, with its storage effects
reified as the ordered list of add_message calls it performs: optionally
persist the last user message, compose the instruction, dispatch to the
responder chosen by the acting model, parse the mention, optionally persist
the assistant output, and return the ChatResponse. -/
def chatTurn (f : Responder) (req : ChatRequestWithThread) :
    ChatResponse × List WriteEvent :=
  let w1 : List WriteEvent :=
    if pyTruthyStr req.thread_id && !req.messages.isEmpty then
      match req.messages.getLast? with
      | some last_msg =>
        if last_msg.role = RoleType.user then
          [{ thread_id := req.thread_id.getD "", role := "user",
             content := last_msg.content, model := none }]
        else []
      | none => []
    else []
  let instruction := combine_messages req.toChatRequest
  let response_text := f req.model instruction
  let next_model := parse_mention response_text req.model
  let w2 : List WriteEvent :=
    if pyTruthyStr req.thread_id then
      [{ thread_id := req.thread_id.getD "", role := "assistant",
         content := response_text, model := some req.model.modelName }]
    else []
  ({ message := { role := RoleType.assistant, content := response_text, model := none },
     model := some req.model.modelName,
     next_model := next_model }, w1 ++ w2)

/-- Replay of one add_message call against a database state (fresh message id
taken as the next index, timestamp fixed to now). -/
def applyWrite (now : Nat) (db : DBState) (w : WriteEvent) : DBState :=
  add_message db db.messages.length now w.thread_id w.role w.content w.model

/-- Replay of the handler's add_message calls in order. -/
def applyWrites (now : Nat) (db : DBState) (ws : List WriteEvent) : DBState :=
  ws.foldl (applyWrite now) db

/-- Whether the last history message has role user (used by step 1 of the
orchestrator). -/
def lastRoleIsUser (msgs : List Message) : Bool :=
  match msgs.getLast? with
  | some m => m.role == RoleType.user
  | none => false

/-- The content of the last history message (empty when there is none). -/
def lastContent (msgs : List Message) : String :=
  match msgs.getLast? with
  | some m => m.content
  | none => ""

/-- Well-formedness of one add_message call issued while producer is acting:
an assistant append names the producer, a user append carries no model. -/
def wfWriteFor (producer : String) (w : WriteEvent) : Bool :=
  if w.role == "assistant" then w.model == some producer
  else if w.role == "user" then w.model == none
  else true

/-- The message-model invariant on a persisted row: assistant rows name one of
the three identities, user rows carry no model. -/
def wfRow (r : MessageRow) : Bool :=
  if r.role == "assistant" then
    match r.model with
    | some m => allModels.contains m
    | none => false
  else if r.role == "user" then r.model == none
  else true

/-- The invariant over the whole messages table. -/
def msgInvariant (db : DBState) : Bool := db.messages.all wfRow

/-! ### Request validation (pydantic models of app/models/chat.py) -/

/-- A chat request as received on the wire, before pydantic validation: the
model and phase fields may be omitted (None here) or carry arbitrary strings. -/
structure RawChatRequest where
  messages : List Message
  model : Option String
  phase : Option String
  thread_id : Option String
deriving DecidableEq

/-- Validation of the model field against the ModelType Literal of
app/models/chat.py line 7: only the three identities are accepted. -/
def parseModelType (s : String) : Option ModelType :=
  if s = "anthropic" then some ModelType.anthropic
  else if s = "gpt" then some ModelType.gpt
  else if s = "gemini" then some ModelType.gemini
  else none

/-- Validation of the phase field against the DiscussionPhase enum values. -/
def parsePhase (s : String) : Option DiscussionPhase :=
  if s = "opinion" then some DiscussionPhase.opinion
  else if s = "free_talk" then some DiscussionPhase.free_talk
  else none

/-- Pydantic validation of ChatRequestWithThread: messages must be nonempty
(min_length=1); an omitted model defaults to gemini and an omitted phase to
OPINION (app/models/chat.py lines 40-44); present fields must parse. -/
def validateChatRequest (raw : RawChatRequest) : Option ChatRequestWithThread :=
  if raw.messages.isEmpty then none
  else
    match (match raw.model with
           | none => some ModelType.gemini
           | some s => parseModelType s),
          (match raw.phase with
           | none => some DiscussionPhase.opinion
           | some s => parsePhase s) with
    | some m, some p =>
      some { messages := raw.messages, model := m, phase := p, thread_id := raw.thread_id }
    | _, _ => none

/-- The error surfaced to the client by the API layer. -/
inductive ApiError where
  | clientError : Nat → ApiError
deriving DecidableEq

/-- The POST /chat endpoint: FastAPI validates the body against the pydantic
model before the handler runs; a validation failure is a 422 client error and
the handler (and hence any responder dispatch) never runs. -/
def chatEndpoint (f : Responder) (raw : RawChatRequest) :
    Except ApiError (ChatResponse × List WriteEvent) :=
  match validateChatRequest raw with
  | none => Except.error (ApiError.clientError 422)
  | some req => Except.ok (chatTurn f req)

/-! ## Helper lemmas -/

theorem matchAt_canonical (rest : List Char) (nm : String) (h : matchAt rest = some nm) :
    ((rest.take nm.length).map Char.toLower).asString = nm ∧ allModels.contains nm = true := by
  unfold matchAt at h
  split at h
  · rename_i h9
    injection h with h'
    subst h'
    refine ⟨?_, by decide⟩
    rw [show ("anthropic".length) = 9 from rfl, h9]
    decide
  · split at h
    · rename_i h3
      injection h with h'
      subst h'
      refine ⟨?_, by decide⟩
      rw [show ("gpt".length) = 3 from rfl, h3]
      decide
    · split at h
      · rename_i h6
        injection h with h'
        subst h'
        refine ⟨?_, by decide⟩
        rw [show ("gemini".length) = 6 from rfl, h6]
        decide
      · exact absurd h (by simp)

theorem scan_canonical : ∀ (fuel : Nat) (cs : List Char),
    ((scanMentions fuel cs).all
      (fun m => allModels.contains ((m.map Char.toLower).asString))) = true := by
  intro fuel
  induction fuel with
  | zero => intro cs; rfl
  | succ n ih =>
    intro cs
    cases cs with
    | nil => rfl
    | cons c rest =>
      by_cases hc : c = '@'
      · rcases hm : matchAt rest with _ | nm
        · simpa [scanMentions, hc, hm] using ih rest
        · have hcan := matchAt_canonical rest nm hm
          have hhead : allModels.contains
              ((List.map Char.toLower (List.take nm.length rest)).asString) = true := by
            rw [hcan.1]
            exact hcan.2
          have hstep : scanMentions (n + 1) (c :: rest)
              = rest.take nm.length :: scanMentions n (rest.drop nm.length) := by
            simp [scanMentions, hc, hm]
          rw [hstep, List.all_cons, hhead, ih]
          decide
      · simpa [scanMentions, hc] using ih rest

theorem mentionLoop_eq_find (current : ModelType) (ms : List (List Char)) :
    mentionLoop current ms
      = (ms.map (fun m => (m.map Char.toLower).asString)).find?
          (fun s => s != current.modelName) := by
  induction ms with
  | nil => rfl
  | cons m t ih =>
    by_cases h : (m.map Char.toLower).asString ≠ current.modelName
    · simp [mentionLoop, h, List.find?_cons_of_pos, bne_iff_ne]
    · push_neg at h
      simp [mentionLoop, h, ih, List.find?_cons_of_neg]

theorem all_map_general {α β : Type} (f : α → β) (p : β → Bool) (l : List α) :
    (l.map f).all p = l.all (fun a => p (f a)) := by
  induction l with
  | nil => rfl
  | cons x t ih => simp [ih]

theorem pyTruthyStr_some_of_ne (t : String) (h : t ≠ "") : pyTruthyStr (some t) = true := by
  unfold pyTruthyStr
  cases hb : t.isEmpty with
  | true => exact absurd ((String.isEmpty_iff t).mp hb) h
  | false => simp [hb]

theorem msgInvariant_applyWrite (now : Nat) (db : DBState) (w : WriteEvent) :
    msgInvariant (applyWrite now db w)
      = (msgInvariant db
          && wfRow { id := db.messages.length, thread_id := w.thread_id,
                     role := w.role, content := w.content, model := w.model }) := by
  simp [msgInvariant, applyWrite, add_message, stmtInsertMessage, stmtBumpUpdatedAt,
    List.all_append]

theorem msgInvariant_applyWrites (now : Nat) :
    ∀ (ws : List WriteEvent) (db : DBState),
      (ws.all (fun w => wfRow { id := 0, thread_id := w.thread_id, role := w.role,
                                content := w.content, model := w.model })) = true →
      msgInvariant (applyWrites now db ws) = msgInvariant db := by
  intro ws
  induction ws with
  | nil => intro db _; rfl
  | cons w t ih =>
    intro db h
    rw [List.all_cons, Bool.and_eq_true] at h
    have hstep : applyWrites now db (w :: t) = applyWrites now (applyWrite now db w) t := rfl
    rw [hstep, ih _ h.2, msgInvariant_applyWrite]
    have hid : wfRow { id := db.messages.length, thread_id := w.thread_id, role := w.role,
                       content := w.content, model := w.model }
        = wfRow { id := 0, thread_id := w.thread_id, role := w.role,
                  content := w.content, model := w.model } := rfl
    rw [hid, h.1, Bool.and_true]

theorem wfWriteFor_imp_wfRow (m : ModelType) (w : WriteEvent)
    (h : wfWriteFor m.modelName w = true) :
    wfRow { id := 0, thread_id := w.thread_id, role := w.role,
            content := w.content, model := w.model } = true := by
  unfold wfWriteFor at h
  unfold wfRow
  by_cases h1 : (w.role == "assistant") = true
  · simp only [h1, if_pos] at h ⊢
    rw [beq_iff_eq] at h
    rw [h]
    cases m <;> decide
  · rw [Bool.not_eq_true] at h1
    simp only [h1] at h ⊢
    by_cases h2 : (w.role == "user") = true
    · simp only [h2, if_pos] at h ⊢
      exact h
    · rw [Bool.not_eq_true] at h2
      simp only [h2, if_neg, Bool.false_eq_true, if_false]

theorem map_bump_no_match (t : String) (now : Nat) :
    ∀ (ts : List ThreadRow), (ts.all fun th => th.id != t) = true →
      (ts.map (fun th => if th.id = t then { th with updated_at := now } else th)) = ts := by
  intro ts
  induction ts with
  | nil => intro _; rfl
  | cons x xs ih =>
    intro h
    rw [List.all_cons, Bool.and_eq_true] at h
    have hx : x.id ≠ t := by simpa [bne_iff_ne] using h.1
    simp [hx, ih h.2]

theorem applyWrites_threads_no_match (now : Nat) (t : String) :
    ∀ (ws : List WriteEvent) (db : DBState),
      (ws.all fun w => w.thread_id == t) = true →
      (db.threads.all fun th => th.id != t) = true →
      (applyWrites now db ws).threads = db.threads
        ∧ (applyWrites now db ws).messages.length = db.messages.length + ws.length := by
  intro ws
  induction ws with
  | nil => intro db _ _; exact ⟨rfl, rfl⟩
  | cons w wsT ih =>
    intro db h1 h2
    rw [List.all_cons, Bool.and_eq_true] at h1
    have hwt : w.thread_id = t := by simpa [beq_iff_eq] using h1.1
    have hthreads : (applyWrite now db w).threads = db.threads := by
      simp only [applyWrite, add_message, stmtInsertMessage, stmtBumpUpdatedAt, hwt]
      exact map_bump_no_match t now db.threads h2
    have hmsgs : (applyWrite now db w).messages.length = db.messages.length + 1 := by
      simp [applyWrite, add_message, stmtInsertMessage, stmtBumpUpdatedAt]
    have hstep : applyWrites now db (w :: wsT) = applyWrites now (applyWrite now db w) wsT := rfl
    obtain ⟨ha, hb⟩ := ih (applyWrite now db w) h1.2 (by rw [hthreads]; exact h2)
    constructor
    · rw [hstep, ha, hthreads]
    · rw [hstep, hb, hmsgs]
      simp [List.length_cons]
      omega

theorem foldl_render_append (msgs : List Message) :
    ∀ (a : String), msgs.foldl (fun acc m => acc ++ renderMessage m) a
      = a ++ concatAll (msgs.map renderMessage) := by
  induction msgs with
  | nil =>
    intro a
    apply String.ext
    simp [concatAll, String.data_append]
  | cons m t ih =>
    intro a
    show t.foldl _ (a ++ renderMessage m) = _
    rw [ih (a ++ renderMessage m)]
    apply String.ext
    simp [concatAll, String.data_append, List.append_assoc]

theorem renderedTranscript_eq_concat (msgs : List Message) :
    renderedTranscript msgs = concatAll (msgs.map renderMessage) := by
  rw [renderedTranscript, foldl_render_append]
  apply String.ext
  simp [String.data_append]

theorem map_render_eq_spec (msgs : List Message)
    (h : ∀ msg ∈ msgs, msg.role = RoleType.assistant → msg.model ≠ none) :
    msgs.map renderMessage = msgs.map specRenderLine := by
  induction msgs with
  | nil => rfl
  | cons m t ih =>
    have hm := h m (by simp)
    have ht : ∀ msg ∈ t, msg.role = RoleType.assistant → msg.model ≠ none :=
      fun msg hmem => h msg (by simp [hmem])
    rw [List.map_cons, List.map_cons, ih ht]
    cases hrole : m.role with
    | user => simp [renderMessage, specRenderLine, hrole]
    | assistant =>
      rcases hmod : m.model with _ | mm
      · exact absurd hmod (hm hrole)
      · simp [renderMessage, specRenderLine, hrole, hmod, pyStrOfOptModel]

set_option maxRecDepth 8000 in
theorem instructions_split (m : ModelType) (p : DiscussionPhase) :
    (match p with
     | DiscussionPhase.opinion => opinionInstructions m
     | DiscussionPhase.free_talk => freeTalkInstructions m)
      = personaFraming m p ++ templateBody p := by
  cases p <;> cases m <;> decide

theorem head?_take50 (l : List Char) : (l.take 50).head? = l.head? := by
  cases l <;> rfl

theorem getLast?_dropWhile_ne_nil (p : Char → Bool) :
    ∀ (l : List Char), l.dropWhile p ≠ [] →
      (l.dropWhile p).getLast? = l.getLast? := by
  intro l
  induction l with
  | nil => intro h; simp [List.dropWhile] at h
  | cons c t ih =>
    intro h
    by_cases hp : p c
    · rw [List.dropWhile_cons, if_pos hp] at h ⊢
      have ht : t ≠ [] := by
        intro he
        subst he
        simp [List.dropWhile] at h
      rw [ih h]
      cases t with
      | nil => exact absurd rfl ht
      | cons x xs => rw [List.getLast?_cons_cons]
    · rw [List.dropWhile_cons, if_neg hp]

/-! ## Claim theorems -/

/-- C1: for every response string and producer, parse_mention returns the
first mention token in order of occurrence whose participant is not the
producer itself, normalized to canonical lowercase; self-mentions are skipped
and scanning continues; if no other participant is mentioned it returns none.
The function is total over all strings by construction. The concrete conjuncts
reproduce the spec's examples: first-wins across multiple mentions and
case-insensitive matching. -/
theorem parse_mention_first_other_participant :
    ∀ (text : String) (current : ModelType),
      parse_mention text current
          = (canonicalMentions text).find? (fun s => s != current.modelName)
        ∧ ((canonicalMentions text).all (fun s => allModels.contains s)) = true
        ∧ parse_mention "@gpt and @gemini" ModelType.anthropic = some "gpt"
        ∧ parse_mention "@GPT" ModelType.anthropic = some "gpt"
        ∧ parse_mention "@anthropic ok @Gemini" ModelType.anthropic = some "gemini"
        ∧ parse_mention "no mentions here" ModelType.anthropic = none := by
  intro text current
  refine ⟨?_, ?_, by decide, by decide, by decide, by decide⟩
  · exact mentionLoop_eq_find current (findallMentions text.toList)
  · rw [canonicalMentions, all_map_general]
    exact scan_canonical text.toList.length text.toList

/-- C2: the code violates the atomicity requirement. With autocommit=True
(app/database.py line 27) the INSERT of add_message commits on its own, so the
state right after it — message row visible, thread updated_at still stale — is
observable by concurrent readers and survives a crash before the UPDATE. This
theorem exhibits that intermediate committed state on a concrete database. -/
theorem add_message_intermediate_state_visible :
    (let db0 : DBState :=
      { threads := [{ id := "t1", title := "새 토론", created_at := 5, updated_at := 5 }],
        messages := [] }
     let mid := stmtInsertMessage db0 0 "t1" "user" "hi" none
     (mid.messages.any (fun r => r.thread_id == "t1" && r.role == "user")) = true
       ∧ mid.threads = db0.threads
       ∧ (add_message db0 0 10 "t1" "user" "hi" none).threads ≠ mid.threads) := by
  decide

set_option maxRecDepth 8000 in
/-- C8: the OPINION-phase instruction text contains no mention token at all
(no at-sign followed by a participant name), while the FREE_TALK-phase
template text contains exactly one example mention token, for every acting
model. -/
theorem phase_template_mention_tokens :
    ∀ (m : ModelType),
      findallMentions (opinionInstructions m).toList = []
        ∧ (findallMentions (freeTalkInstructions m).toList).length = 1 := by
  intro m
  cases m <;> exact ⟨by decide, by decide⟩

/-- C3: a chat request whose model identifier is not one of the three fixed
identities fails pydantic validation of the ModelType Literal and is rejected
as a 422 client error before the handler runs; no responder is invoked — the
endpoint's outcome does not depend on the responders at all — and no response
is produced. -/
theorem chat_rejects_unrecognized_model :
    ∀ (raw : RawChatRequest) (s : String) (f g : Responder),
      raw.model = some s → s ≠ "anthropic" → s ≠ "gpt" → s ≠ "gemini" →
      chatEndpoint f raw = Except.error (ApiError.clientError 422)
        ∧ chatEndpoint f raw = chatEndpoint g raw := by
  intro raw s f g hm h1 h2 h3
  have hparse : parseModelType s = none := by
    simp [parseModelType, h1, h2, h3]
  have hval : validateChatRequest raw = none := by
    unfold validateChatRequest
    rw [hm]
    by_cases he : raw.messages.isEmpty <;> simp [he, hparse]
  constructor
  · simp [chatEndpoint, hval]
  · simp [chatEndpoint, hval]

/-- Witness for C3 at a concrete request with the unrecognized identifier
mistral: rejected with a 422 for any pair of responders. -/
theorem chat_rejects_unrecognized_model_witness :
    chatEndpoint (fun _ _ => "a")
        { messages := [{ role := RoleType.user, content := "hi", model := none }],
          model := some "mistral", phase := none, thread_id := none }
      = Except.error (ApiError.clientError 422)
      ∧ chatEndpoint (fun _ _ => "a")
          { messages := [{ role := RoleType.user, content := "hi", model := none }],
            model := some "mistral", phase := none, thread_id := none }
        = chatEndpoint (fun _ _ => "b")
            { messages := [{ role := RoleType.user, content := "hi", model := none }],
              model := some "mistral", phase := none, thread_id := none } :=
  chat_rejects_unrecognized_model _ "mistral" _ _ rfl (by decide) (by decide) (by decide)

/-- C10: a chat request that omits the model field or the phase field is not
rejected: validation fills in the defaults gemini and OPINION, the endpoint
answers normally, and the produced message content is the gemini responder's
output on the OPINION-phase instructions. -/
theorem chat_defaults_to_gemini_opinion :
    ∀ (raw : RawChatRequest) (f : Responder),
      raw.model = none → raw.phase = none → raw.messages.isEmpty = false →
      validateChatRequest raw
          = some { messages := raw.messages, model := ModelType.gemini,
                   phase := DiscussionPhase.opinion, thread_id := raw.thread_id }
        ∧ chatEndpoint f raw
          = Except.ok (chatTurn f
              { messages := raw.messages, model := ModelType.gemini,
                phase := DiscussionPhase.opinion, thread_id := raw.thread_id })
        ∧ (chatTurn f
              { messages := raw.messages, model := ModelType.gemini,
                phase := DiscussionPhase.opinion, thread_id := raw.thread_id }).1.message.content
          = f ModelType.gemini
              (combine_messages
                { messages := raw.messages, model := ModelType.gemini,
                  phase := DiscussionPhase.opinion }) := by
  intro raw f hm hp hne
  have hval : validateChatRequest raw
      = some { messages := raw.messages, model := ModelType.gemini,
               phase := DiscussionPhase.opinion, thread_id := raw.thread_id } := by
    unfold validateChatRequest
    rw [hm, hp, hne]
    simp
  exact ⟨hval, by simp [chatEndpoint, hval], rfl⟩

/-- Witness for C10 at a concrete request omitting model and phase. -/
theorem chat_defaults_to_gemini_opinion_witness :
    validateChatRequest
        { messages := [{ role := RoleType.user, content := "hi", model := none }],
          model := none, phase := none, thread_id := none }
      = some { messages := [{ role := RoleType.user, content := "hi", model := none }],
               model := ModelType.gemini, phase := DiscussionPhase.opinion,
               thread_id := none } :=
  (chat_defaults_to_gemini_opinion
    { messages := [{ role := RoleType.user, content := "hi", model := none }],
      model := none, phase := none, thread_id := none }
    (fun _ _ => "a") rfl rfl (by decide)).1

/-- C4 counterexample: a supplied but empty thread id string together with a
last user message. The claim predicts the user message is persisted (a thread
id is supplied and the last message has role user), but the handler tests
Python truthiness of thread_id, so the turn performs no storage write at all. -/
theorem chat_empty_thread_id_skips_persistence :
    ((some "" : Option String) ≠ none)
      ∧ (([{ role := RoleType.user, content := "hi", model := none }] : List Message).getLast?.map
          Message.role = some RoleType.user)
      ∧ (chatTurn (fun _ _ => "ok")
          { messages := [{ role := RoleType.user, content := "hi", model := none }],
            model := ModelType.gemini, phase := DiscussionPhase.opinion,
            thread_id := some "" }).2 = [] := by
  refine ⟨by decide, by decide, ?_⟩
  decide

/-- C4 amended: the last message of the history is persisted as a user message
(role user, no model) exactly when the supplied thread id string is non-empty
(Python truthiness of thread_id) and the last message has role user; and
whenever the thread id is absent or empty, the turn performs no storage write
at all. -/
theorem chat_user_persistence_characterization :
    ∀ (req : ChatRequestWithThread) (f : Responder),
      ((chatTurn f req).2.filter (fun w => w.role == "user")
        = if pyTruthyStr req.thread_id && lastRoleIsUser req.messages then
            [{ thread_id := req.thread_id.getD "", role := "user",
               content := lastContent req.messages, model := none }]
          else [])
      ∧ ((pyTruthyStr req.thread_id = true) ∨ (chatTurn f req).2 = []) := by
  intro req f
  by_cases ht : pyTruthyStr req.thread_id = true
  · refine ⟨?_, Or.inl ht⟩
    rcases hmsgs : req.messages with _ | ⟨a, t⟩
    · simp [chatTurn, hmsgs, ht, lastRoleIsUser]
    · rcases hgl : (a :: t).getLast? with _ | last
      · simp at hgl
      · by_cases hrole : last.role = RoleType.user
        · simp [chatTurn, hmsgs, ht, hgl, hrole, lastRoleIsUser, lastContent]
        · simp [chatTurn, hmsgs, ht, hgl, hrole, lastRoleIsUser, lastContent]
  · rw [Bool.not_eq_true] at ht
    have hw : (chatTurn f req).2 = [] := by
      simp [chatTurn, ht]
    exact ⟨by rw [hw]; simp [ht], Or.inr hw⟩

/-- C6: every add_message call issued by the chat turn is well formed — the
assistant append names exactly the acting model (one of the three identities)
and the user append carries no model — and replaying the turn's writes against
any database preserves the message-model invariant. -/
theorem chat_append_model_invariant :
    ∀ (req : ChatRequestWithThread) (f : Responder) (db : DBState) (now : Nat),
      ((chatTurn f req).2.all (wfWriteFor req.model.modelName)) = true
        ∧ msgInvariant (applyWrites now db (chatTurn f req).2) = msgInvariant db := by
  intro req f db now
  have hall : ((chatTurn f req).2.all (wfWriteFor req.model.modelName)) = true := by
    rcases hmsgs : req.messages with _ | ⟨a, t⟩
    · by_cases ht : pyTruthyStr req.thread_id = true
      · simp [chatTurn, hmsgs, ht, wfWriteFor]
      · rw [Bool.not_eq_true] at ht
        simp [chatTurn, hmsgs, ht]
    · rcases hgl : (a :: t).getLast? with _ | last
      · simp at hgl
      · by_cases ht : pyTruthyStr req.thread_id = true
        · by_cases hrole : last.role = RoleType.user
          · simp [chatTurn, hmsgs, ht, hgl, hrole, wfWriteFor]
          · simp [chatTurn, hmsgs, ht, hgl, hrole, wfWriteFor]
        · rw [Bool.not_eq_true] at ht
          simp [chatTurn, hmsgs, ht]
  refine ⟨hall, ?_⟩
  refine msgInvariant_applyWrites now _ db ?_
  rw [List.all_eq_true] at hall ⊢
  intro w hwmem
  exact wfWriteFor_imp_wfRow req.model w (hall w hwmem)

/-- C9: a chat request whose thread id matches no thread row does not fail
with a not-found result: both the user and the assistant message are inserted
with the given thread id without any existence check, the UPDATE of the
threads table matches zero rows (the threads table is unchanged), and a normal
ChatResponse naming the acting model is returned. -/
theorem chat_unknown_thread_no_notfound :
    ∀ (db : DBState) (req : ChatRequestWithThread) (f : Responder) (t : String) (now : Nat),
      req.thread_id = some t → t ≠ "" →
      (db.threads.all fun th => th.id != t) = true →
      lastRoleIsUser req.messages = true →
      ((chatTurn f req).2.map (fun w => w.thread_id) = [t, t])
        ∧ ((chatTurn f req).2.map (fun w => w.role) = ["user", "assistant"])
        ∧ (applyWrites now db (chatTurn f req).2).threads = db.threads
        ∧ (applyWrites now db (chatTurn f req).2).messages.length = db.messages.length + 2
        ∧ (chatTurn f req).1.model = some req.model.modelName := by
  intro db req f t now hti htne hdb hlast
  have ht : pyTruthyStr req.thread_id = true := by
    rw [hti]
    exact pyTruthyStr_some_of_ne t htne
  rcases hgl : req.messages.getLast? with _ | last
  · rw [lastRoleIsUser, hgl] at hlast
    exact absurd hlast (by decide)
  · have hlast' : last.role = RoleType.user := by
      rw [lastRoleIsUser, hgl] at hlast
      exact beq_iff_eq.mp hlast
    have hne : req.messages.isEmpty = false := by
      rcases hmsgs : req.messages with _ | ⟨a, ta⟩
      · rw [hmsgs] at hgl
        simp at hgl
      · rfl
    have hw : (chatTurn f req).2
        = [{ thread_id := t, role := "user", content := last.content, model := none },
           { thread_id := t, role := "assistant",
             content := f req.model (combine_messages req.toChatRequest),
             model := some req.model.modelName }] := by
      simp [chatTurn, hti, pyTruthyStr_some_of_ne t htne, hne, hgl, hlast']
    obtain ⟨hthreads, hlen⟩ := applyWrites_threads_no_match now t (chatTurn f req).2 db
      (by rw [hw]; simp) hdb
    refine ⟨by rw [hw]; rfl, by rw [hw]; rfl, hthreads, ?_, rfl⟩
    rw [hlen, hw]
    rfl

/-- C9 witness at a concrete database holding one unrelated thread and a
request naming a nonexistent thread id. -/
theorem chat_unknown_thread_no_notfound_witness :
    ((chatTurn (fun _ _ => "ok")
        { messages := [{ role := RoleType.user, content := "hi", model := none }],
          model := ModelType.gemini, phase := DiscussionPhase.opinion,
          thread_id := some "zzz" }).2.map (fun w => w.thread_id) = ["zzz", "zzz"])
      ∧ ((chatTurn (fun _ _ => "ok")
          { messages := [{ role := RoleType.user, content := "hi", model := none }],
            model := ModelType.gemini, phase := DiscussionPhase.opinion,
            thread_id := some "zzz" }).2.map (fun w => w.role) = ["user", "assistant"])
      ∧ (applyWrites 7 { threads := [{ id := "a", title := "t", created_at := 0, updated_at := 0 }],
                         messages := [] }
          ((chatTurn (fun _ _ => "ok")
            { messages := [{ role := RoleType.user, content := "hi", model := none }],
              model := ModelType.gemini, phase := DiscussionPhase.opinion,
              thread_id := some "zzz" }).2)).threads
        = [{ id := "a", title := "t", created_at := 0, updated_at := 0 }]
      ∧ (applyWrites 7 { threads := [{ id := "a", title := "t", created_at := 0, updated_at := 0 }],
                         messages := [] }
          ((chatTurn (fun _ _ => "ok")
            { messages := [{ role := RoleType.user, content := "hi", model := none }],
              model := ModelType.gemini, phase := DiscussionPhase.opinion,
              thread_id := some "zzz" }).2)).messages.length = 0 + 2
      ∧ (chatTurn (fun _ _ => "ok")
          { messages := [{ role := RoleType.user, content := "hi", model := none }],
            model := ModelType.gemini, phase := DiscussionPhase.opinion,
            thread_id := some "zzz" }).1.model = some (ModelType.gemini).modelName :=
  chat_unknown_thread_no_notfound
    { threads := [{ id := "a", title := "t", created_at := 0, updated_at := 0 }], messages := [] }
    { messages := [{ role := RoleType.user, content := "hi", model := none }],
      model := ModelType.gemini, phase := DiscussionPhase.opinion, thread_id := some "zzz" }
    (fun _ _ => "ok") "zzz" 7 rfl (by decide) (by decide) (by decide)

/-- C5: for every history whose assistant messages carry their model (the
persisted-message invariant), the composed prompt is exactly the persona
framing (naming the acting participant and the two others, self excluded),
then the phase-specific template body, then the transcript wrapper with each
user message rendered as a User: line and each assistant message as a
model-name: line, one line per message in the original order. -/
theorem combine_messages_structure :
    ∀ (req : ChatRequest),
      (∀ msg ∈ req.messages, msg.role = RoleType.assistant → msg.model ≠ none) →
      combine_messages req
        = personaFraming req.model req.phase
            ++ templateBody req.phase
            ++ "\n\n<지금까지의 대화>\n"
            ++ concatAll (req.messages.map specRenderLine)
            ++ "\n" := by
  intro req h
  simp only [combine_messages]
  rw [instructions_split req.model req.phase, renderedTranscript_eq_concat,
    map_render_eq_spec req.messages h]

/-- C5 witness at a concrete two-message history acted on by anthropic in the
FREE_TALK phase. -/
theorem combine_messages_structure_witness :
    combine_messages
        { messages := [{ role := RoleType.user, content := "hi", model := none },
                       { role := RoleType.assistant, content := "yo",
                         model := some ModelType.gpt }],
          model := ModelType.anthropic, phase := DiscussionPhase.free_talk }
      = personaFraming ModelType.anthropic DiscussionPhase.free_talk
          ++ templateBody DiscussionPhase.free_talk
          ++ "\n\n<지금까지의 대화>\n"
          ++ concatAll
              (([{ role := RoleType.user, content := "hi", model := none },
                 { role := RoleType.assistant, content := "yo",
                   model := some ModelType.gpt }] : List Message).map specRenderLine)
          ++ "\n" :=
  combine_messages_structure
    { messages := [{ role := RoleType.user, content := "hi", model := none },
                   { role := RoleType.assistant, content := "yo",
                     model := some ModelType.gpt }],
      model := ModelType.anthropic, phase := DiscussionPhase.free_talk }
    (by decide)

/-- C7 counterexample: a responder output with a quote character in position
50 and no surrounding whitespace or quotes. Stripping removes nothing, and the
truncation to 50 characters then leaves a trailing quote character, so the
claim's consequence that the persisted title never ends in a quote character
is false. -/
theorem generate_title_trailing_quote_possible :
    (generate_title_output ((List.replicate 49 'a' ++ ['"', 'b', 'b']).asString)).toList.getLast?
        = some '"'
      ∧ (generate_title_output ((List.replicate 49 'a' ++ ['"', 'b', 'b']).asString)).length = 50 := by
  refine ⟨?_, ?_⟩ <;> decide

/-- C7 amended: the persisted title is the responder output stripped of
surrounding whitespace, then of surrounding quote characters, then truncated
to at most 50 characters; its length is therefore at most 50 and it never
begins with a quote character, and it also never ends with a quote character
provided the stripped output already fits in 50 characters (truncation alone
can expose a trailing quote, as the counterexample shows). The final conjunct
records that update_thread_title persists exactly this computed title. -/
theorem generate_title_strip_truncate :
    ∀ (raw : String),
      generate_title_output raw
          = ((pyStrip isQuoteChar (pyStrip isPyWhitespace raw.toList)).take 50).asString
        ∧ (generate_title_output raw).length ≤ 50
        ∧ (generate_title_output raw).toList.head?.elim True (fun c => isQuoteChar c = false)
        ∧ ((pyStrip isQuoteChar (pyStrip isPyWhitespace raw.toList)).length ≤ 50 →
            (generate_title_output raw).toList.getLast?.elim True
              (fun c => isQuoteChar c = false))
        ∧ (∀ (db : DBState) (tid : String) (now : Nat),
            ((update_thread_title db tid (generate_title_output raw) now).1.threads.all
              (fun th => th.id != tid || th.title == generate_title_output raw)) = true) := by
  intro raw
  refine ⟨rfl, ?_, ?_, ?_, ?_⟩
  · show ((pyStrip isQuoteChar (pyStrip isPyWhitespace raw.toList)).take 50).length ≤ 50
    exact List.length_take_le 50 _
  · show ((pyStrip isQuoteChar (pyStrip isPyWhitespace raw.toList)).take 50).head?.elim True
      (fun c => isQuoteChar c = false)
    rw [head?_take50]
    rcases hs : (pyStrip isQuoteChar (pyStrip isPyWhitespace raw.toList)).head? with _ | c
    · exact trivial
    · have h1 : ((pyStrip isPyWhitespace raw.toList).dropWhile isQuoteChar).reverse.dropWhile
          isQuoteChar ≠ [] := by
        intro he
        rw [pyStrip, stripTrailingBy, stripLeadingBy, he] at hs
        simp at hs
      have h2 : (((pyStrip isPyWhitespace raw.toList).dropWhile isQuoteChar).reverse.dropWhile
          isQuoteChar).getLast? = some c := by
        rw [← List.head?_reverse]
        exact hs
      rw [getLast?_dropWhile_ne_nil isQuoteChar _ h1, List.getLast?_reverse] at h2
      have h4 := List.head?_dropWhile_not isQuoteChar (pyStrip isPyWhitespace raw.toList)
      rw [h2] at h4
      exact h4
  · intro hlen
    show ((pyStrip isQuoteChar (pyStrip isPyWhitespace raw.toList)).take 50).getLast?.elim True
      (fun c => isQuoteChar c = false)
    rw [List.take_of_length_le hlen]
    rcases hs : (pyStrip isQuoteChar (pyStrip isPyWhitespace raw.toList)).getLast? with _ | c
    · exact trivial
    · have h1 : (((pyStrip isPyWhitespace raw.toList).dropWhile isQuoteChar).reverse.dropWhile
          isQuoteChar).head? = some c := by
        rw [← List.getLast?_reverse]
        exact hs
      have h4 := List.head?_dropWhile_not isQuoteChar
        ((pyStrip isPyWhitespace raw.toList).dropWhile isQuoteChar).reverse
      rw [h1] at h4
      exact h4
  · intro db tid now
    rw [List.all_eq_true]
    intro th hth
    rw [update_thread_title] at hth
    simp only [List.mem_map] at hth
    obtain ⟨t0, _, hmap⟩ := hth
    by_cases hid : t0.id = tid
    · rw [if_pos hid] at hmap
      rw [← hmap]
      simp
    · rw [if_neg hid] at hmap
      rw [← hmap]
      simp [hid]

/-- C7 amended witness: a quoted short output is stripped of its quotes and
keeps no trailing quote. -/
theorem generate_title_strip_truncate_witness :
    (generate_title_output "\"hello\"").toList.getLast?.elim True
      (fun c => isQuoteChar c = false) :=
  (generate_title_strip_truncate "\"hello\"").2.2.2.1 (by decide)

end Agora
